import Mathlib

/-!
Verification of the `unused_self` lint
(src/src/tools/clippy/clippy_lints/src/unused_self.rs).

The development shallowly embeds the parts of the compiler IR that the lint
consults: spans with an expansion flag, patterns with a resolved binding
identity, method bodies as expression trees whose reference nodes carry a
resolved local identity distinct from their surface name, and the impl-item
and parent-item shape that `check_impl_item` destructures.  The lint pass
itself is translated condition by condition from the source; the two
`clippy_utils` helpers it calls (`is_local_used`, `span_lint_and_help`) are
not part of the repository snapshot and are modelled from the specification.
-/

/-- A source span.  The source consults `Span::from_expansion` (whether the
span was produced by macro expansion); that query is embedded as a field. -/
structure Span where
  fromExpansion : Bool
  lo : Nat
  hi : Nat
deriving Repr, DecidableEq

/-- A binding pattern: the source uses `self_param.pat.hir_id` as the
resolved binding identity of the receiver; the surface name is kept to state
the shadowing claims.  Identities are embedded as naturals. -/
structure Pat where
  hirId : Nat
  name : String
deriving Repr, DecidableEq

/-- A body parameter (`rustc_hir::Param`): a pattern plus its span. -/
structure Param where
  pat : Pat
  span : Span
deriving Repr, DecidableEq

/-- Resolution of a path expression (`rustc_hir::def::Res` restricted to what
the lint distinguishes): a reference to a local binding with its resolved
identity, or anything else. -/
inductive Res where
  | localVar (id : Nat)
  | nonLocal
deriving Repr, DecidableEq

/-- Method-body expressions: an embedding of the `rustc_hir::Expr` variants
relevant to the lint.  A `path` node carries both its surface name and its
resolution; `letIn` embeds a block statement binding a fresh pattern (the
vehicle for shadowing); `closure` embeds a nested closure whose body is
traversed by the usage visitor. -/
inductive Expr where
  | path (name : String) (res : Res)
  | lit (n : Int)
  | field (e : Expr) (fieldName : String)
  | app (f : Expr) (a : Expr)
  | binary (l : Expr) (r : Expr)
  | assign (lhs : Expr) (rhs : Expr)
  | letIn (pat : Pat) (init : Expr) (rest : Expr)
  | closure (body : Expr)
  | unit
deriving Repr, DecidableEq

/-- A function body (`rustc_hir::Body`): its parameters and its value. -/
structure Body where
  params : List Param
  value : Expr
deriving Repr, DecidableEq

/-- The kind of an impl item.  In the source `ImplItemKind::Fn(.., body_id)`
holds a body id that `check_impl_item` resolves through `tcx.hir().body`;
the embedding inlines the resolved body. -/
inductive ImplItemKind where
  | fn (body : Body)
  | constItem
  | typeAlias
deriving Repr, DecidableEq

/-- An item inside an impl block (`rustc_hir::ImplItem`): its span and kind. -/
structure ImplItem where
  span : Span
  kind : ImplItemKind
deriving Repr, DecidableEq

/-- The `of_trait` component of `rustc_hir::Impl`: `some` names the
implemented trait, `none` is a plain (inherent) impl block. -/
structure Impl where
  of_trait : Option String
deriving Repr, DecidableEq

/-- The kind of the parent item, restricted to what the pattern
`ItemKind::Impl(Impl \x7b of_trait: None, .. \x7d)` distinguishes. -/
inductive ItemKind where
  | implBlock (i : Impl)
  | otherItem
deriving Repr, DecidableEq

/-- The parent item (`rustc_hir::Item`) of the inspected impl item. -/
structure Item where
  kind : ItemKind
deriving Repr, DecidableEq

/-- The facts `check_impl_item` reads from the `LateContext`: the parent item
of the inspected impl item, the associated-item fact
`assoc_item.fn_has_self_parameter`, and the visibility fact
`cx.effective_visibilities.is_exported(impl_item.def_id.def_id)`. -/
structure LateContext where
  parent_item : Item
  fn_has_self_parameter : Bool
  is_exported : Bool
deriving Repr, DecidableEq

/-- The lint pass state: the single configuration flag. -/
structure UnusedSelf where
  avoid_breaking_exported_api : Bool
deriving Repr, DecidableEq

/-- `UnusedSelf::new`. -/
def UnusedSelf.new (avoid_breaking_exported_api : Bool) : UnusedSelf :=
  { avoid_breaking_exported_api := avoid_breaking_exported_api }

/-- A lint declaration: its name and lint group, from
`declare_clippy_lint! \x7b .. pub UNUSED_SELF, pedantic, .. \x7d`. -/
structure Lint where
  name : String
  group : String
deriving Repr, DecidableEq

/-- The `UNUSED_SELF` lint, declared in the `pedantic` group. -/
def UNUSED_SELF : Lint :=
  { name := "unused_self", group := "pedantic" }

/-- A diagnostic record as produced by the reporting helper: the lint (whose
group is its severity tier), the anchor span, the primary message, an
optional help span, the help text, and any machine-applicable fix. -/
structure Diagnostic where
  lint : Lint
  span : Span
  message : String
  help_span : Option Span
  help_message : String
  machine_applicable_fix : Option String
deriving Repr, DecidableEq

/-- Modelled from the spec: `clippy_utils::diagnostics::span_lint_and_help`
is not under src/.  Per the output contract it emits one diagnostic for the
lint, anchored at the given span, with the fixed message and an attached
free-text help suggestion, and applies no machine-applicable patch. -/
def span_lint_and_help (lint : Lint) (sp : Span) (msg : String)
    (help_span : Option Span) (help_msg : String) : Diagnostic :=
  { lint := lint, span := sp, message := msg, help_span := help_span,
    help_message := help_msg, machine_applicable_fix := none }

/-- Modelled from the spec: `clippy_utils::visitors::is_local_used` is not
under src/.  Per section 4.3 the visitor traverses every expression of the
body, including the bodies of nested closures defined in it, and reports
`used` exactly when some reference node has a resolved binding identity equal
to the queried identity; surface names are never consulted, so a same-named
binding with a different resolved identity never counts. -/
def is_local_used (e : Expr) (id : Nat) : Bool :=
  match e with
  | .path _ (.localVar i) => i == id
  | .path _ .nonLocal => false
  | .lit _ => false
  | .field e _ => is_local_used e id
  | .app f a => is_local_used f id || is_local_used a id
  | .binary l r => is_local_used l id || is_local_used r id
  | .assign l r => is_local_used l id || is_local_used r id
  | .letIn _ init rest => is_local_used init id || is_local_used rest id
  | .closure b => is_local_used b id
  | .unit => false

/-- `UnusedSelf::check_impl_item`, translated condition by condition.  The
side-effecting call to `span_lint_and_help` becomes the `some` result; every
early exit of the `if_chain!` becomes `none`.  The guard order is the order
of the source: expansion check, plain-impl parent, `fn_has_self_parameter`,
function kind, export/configuration exclusion, first body parameter, usage
check. -/
def check_impl_item (s : UnusedSelf) (cx : LateContext)
    (impl_item : ImplItem) : Option Diagnostic :=
  if impl_item.span.fromExpansion then
    none
  else
    match cx.parent_item.kind with
    | ItemKind.implBlock { of_trait := none } =>
      if cx.fn_has_self_parameter then
        match impl_item.kind with
        | ImplItemKind.fn body =>
          if !cx.is_exported || !s.avoid_breaking_exported_api then
            match body.params with
            | self_param :: _ =>
              if !is_local_used body.value self_param.pat.hirId then
                some (span_lint_and_help UNUSED_SELF self_param.span
                  "unused `self` argument" none
                  "consider refactoring to a associated function")
              else
                none
            | [] => none
          else
            none
        | _ => none
      else
        none
    | _ => none

/-- A path expression with surface name `name` and resolved local identity
`id` occurs somewhere in the expression, nested closures included.  This
formalises a binding appearing as a direct reference in a body. -/
inductive PathOccurs (name : String) (id : Nat) : Expr → Prop where
  | here : PathOccurs name id (.path name (.localVar id))
  | inField {e : Expr} {fn : String} :
      PathOccurs name id e → PathOccurs name id (.field e fn)
  | inAppFn {f a : Expr} :
      PathOccurs name id f → PathOccurs name id (.app f a)
  | inAppArg {f a : Expr} :
      PathOccurs name id a → PathOccurs name id (.app f a)
  | inBinaryL {l r : Expr} :
      PathOccurs name id l → PathOccurs name id (.binary l r)
  | inBinaryR {l r : Expr} :
      PathOccurs name id r → PathOccurs name id (.binary l r)
  | inAssignL {l r : Expr} :
      PathOccurs name id l → PathOccurs name id (.assign l r)
  | inAssignR {l r : Expr} :
      PathOccurs name id r → PathOccurs name id (.assign l r)
  | inLetInit {p : Pat} {init rest : Expr} :
      PathOccurs name id init → PathOccurs name id (.letIn p init rest)
  | inLetRest {p : Pat} {init rest : Expr} :
      PathOccurs name id rest → PathOccurs name id (.letIn p init rest)
  | inClosure {b : Expr} :
      PathOccurs name id b → PathOccurs name id (.closure b)

/-- The usage visitor reports `used` exactly when some path with the queried
resolved identity occurs in the expression, under any surface name. -/
theorem is_local_used_iff_pathOccurs (e : Expr) (id : Nat) :
    is_local_used e id = true ↔ ∃ nm, PathOccurs nm id e := by
  induction e with
  | path nm res =>
    cases res with
    | localVar i =>
      simp only [is_local_used, beq_iff_eq]
      constructor
      · rintro rfl
        exact ⟨nm, PathOccurs.here⟩
      · rintro ⟨nm2, h⟩
        cases h
        rfl
    | nonLocal =>
      simp only [is_local_used, Bool.false_eq_true, false_iff]
      rintro ⟨nm2, h⟩
      cases h
  | lit n =>
    simp only [is_local_used, Bool.false_eq_true, false_iff]
    rintro ⟨nm2, h⟩
    cases h
  | field e fn ih =>
    simp only [is_local_used, ih]
    constructor
    · rintro ⟨nm2, h⟩
      exact ⟨nm2, PathOccurs.inField h⟩
    · rintro ⟨nm2, h⟩
      cases h with
      | inField h2 => exact ⟨nm2, h2⟩
  | app f a ihf iha =>
    simp only [is_local_used, Bool.or_eq_true, ihf, iha]
    constructor
    · rintro (⟨nm2, h⟩ | ⟨nm2, h⟩)
      · exact ⟨nm2, PathOccurs.inAppFn h⟩
      · exact ⟨nm2, PathOccurs.inAppArg h⟩
    · rintro ⟨nm2, h⟩
      cases h with
      | inAppFn h2 => exact Or.inl ⟨nm2, h2⟩
      | inAppArg h2 => exact Or.inr ⟨nm2, h2⟩
  | binary l r ihl ihr =>
    simp only [is_local_used, Bool.or_eq_true, ihl, ihr]
    constructor
    · rintro (⟨nm2, h⟩ | ⟨nm2, h⟩)
      · exact ⟨nm2, PathOccurs.inBinaryL h⟩
      · exact ⟨nm2, PathOccurs.inBinaryR h⟩
    · rintro ⟨nm2, h⟩
      cases h with
      | inBinaryL h2 => exact Or.inl ⟨nm2, h2⟩
      | inBinaryR h2 => exact Or.inr ⟨nm2, h2⟩
  | assign l r ihl ihr =>
    simp only [is_local_used, Bool.or_eq_true, ihl, ihr]
    constructor
    · rintro (⟨nm2, h⟩ | ⟨nm2, h⟩)
      · exact ⟨nm2, PathOccurs.inAssignL h⟩
      · exact ⟨nm2, PathOccurs.inAssignR h⟩
    · rintro ⟨nm2, h⟩
      cases h with
      | inAssignL h2 => exact Or.inl ⟨nm2, h2⟩
      | inAssignR h2 => exact Or.inr ⟨nm2, h2⟩
  | letIn p init rest ihi ihr =>
    simp only [is_local_used, Bool.or_eq_true, ihi, ihr]
    constructor
    · rintro (⟨nm2, h⟩ | ⟨nm2, h⟩)
      · exact ⟨nm2, PathOccurs.inLetInit h⟩
      · exact ⟨nm2, PathOccurs.inLetRest h⟩
    · rintro ⟨nm2, h⟩
      cases h with
      | inLetInit h2 => exact Or.inl ⟨nm2, h2⟩
      | inLetRest h2 => exact Or.inr ⟨nm2, h2⟩
  | closure b ih =>
    simp only [is_local_used, ih]
    constructor
    · rintro ⟨nm2, h⟩
      exact ⟨nm2, PathOccurs.inClosure h⟩
    · rintro ⟨nm2, h⟩
      cases h with
      | inClosure h2 => exact ⟨nm2, h2⟩
  | unit =>
    simp only [is_local_used, Bool.false_eq_true, false_iff]
    rintro ⟨nm2, h⟩
    cases h

/-- Contrapositive form: the visitor reports `not-used` exactly when no path
with the queried resolved identity occurs, whatever its surface name. -/
theorem is_local_used_eq_false_iff (e : Expr) (id : Nat) :
    is_local_used e id = false ↔ ∀ nm, ¬ PathOccurs nm id e := by
  rw [← Bool.not_eq_true, is_local_used_iff_pathOccurs]
  push_neg
  rfl

/-- The diagnostic that the lint emits for a receiver parameter `p`:
the exact `span_lint_and_help` call of the source. -/
def unused_self_diag (p : Param) : Diagnostic :=
  span_lint_and_help UNUSED_SELF p.span "unused `self` argument" none
    "consider refactoring to a associated function"

/-- Positive case of the lint pass: when every guard of the chain holds, the
check produces exactly the diagnostic of the source call. -/
theorem check_impl_item_some (s : UnusedSelf) (cx : LateContext) (i : ImplItem)
    (body : Body) (p : Param) (rest : List Param)
    (h1 : i.span.fromExpansion = false)
    (h2 : cx.parent_item.kind = ItemKind.implBlock { of_trait := none })
    (h3 : cx.fn_has_self_parameter = true)
    (h4 : i.kind = ImplItemKind.fn body)
    (h5 : body.params = p :: rest)
    (h6 : cx.is_exported = false ∨ s.avoid_breaking_exported_api = false)
    (h7 : is_local_used body.value p.pat.hirId = false) :
    check_impl_item s cx i = some (unused_self_diag p) := by
  unfold check_impl_item
  repeat' split
  all_goals simp_all [unused_self_diag]

/-- Claim C1: for every method declaration whose enclosing implementation
block implements a trait, the check emits no diagnostic, even when the
receiver is never used in the body. -/
theorem trait_impl_method_not_flagged (s : UnusedSelf) (cx : LateContext)
    (i : ImplItem) (t : String)
    (h : cx.parent_item.kind = ItemKind.implBlock { of_trait := some t }) :
    check_impl_item s cx i = none := by
  unfold check_impl_item
  repeat' split
  all_goals simp_all

/-- Witness for C1: scenario 3, a method with an unused receiver inside an
implementation of the trait `Shape` draws no diagnostic. -/
theorem trait_impl_method_not_flagged_witness :
    check_impl_item { avoid_breaking_exported_api := false }
      { parent_item := { kind := ItemKind.implBlock { of_trait := some "Shape" } },
        fn_has_self_parameter := true, is_exported := false }
      { span := { fromExpansion := false, lo := 0, hi := 40 },
        kind := ImplItemKind.fn
          { params := [{ pat := { hirId := 0, name := "self" },
                         span := { fromExpansion := false, lo := 4, hi := 9 } }],
            value := Expr.lit 42 } } = none :=
  trait_impl_method_not_flagged _ _ _ "Shape" rfl

/-- Claim C5: for every method declaration whose span indicates it was
produced by macro expansion, the check emits no diagnostic. -/
theorem expansion_span_not_flagged (s : UnusedSelf) (cx : LateContext)
    (i : ImplItem) (h : i.span.fromExpansion = true) :
    check_impl_item s cx i = none := by
  simp [check_impl_item, h]

/-- Witness for C5: scenario 6, a macro-expanded method with an unused
receiver draws no diagnostic. -/
theorem expansion_span_not_flagged_witness :
    check_impl_item { avoid_breaking_exported_api := false }
      { parent_item := { kind := ItemKind.implBlock { of_trait := none } },
        fn_has_self_parameter := true, is_exported := false }
      { span := { fromExpansion := true, lo := 0, hi := 40 },
        kind := ImplItemKind.fn
          { params := [{ pat := { hirId := 0, name := "self" },
                         span := { fromExpansion := true, lo := 4, hi := 9 } }],
            value := Expr.lit 42 } } = none :=
  expansion_span_not_flagged _ _ _ rfl

/-- Claim C6: for every method that declares no receiver parameter
(`fn_has_self_parameter` is false), the check emits no diagnostic. -/
theorem no_receiver_not_flagged (s : UnusedSelf) (cx : LateContext)
    (i : ImplItem) (h : cx.fn_has_self_parameter = false) :
    check_impl_item s cx i = none := by
  unfold check_impl_item
  repeat' split
  all_goals simp_all

/-- Witness for C6: an associated function with no receiver in a plain impl
block draws no diagnostic. -/
theorem no_receiver_not_flagged_witness :
    check_impl_item { avoid_breaking_exported_api := false }
      { parent_item := { kind := ItemKind.implBlock { of_trait := none } },
        fn_has_self_parameter := false, is_exported := false }
      { span := { fromExpansion := false, lo := 0, hi := 40 },
        kind := ImplItemKind.fn { params := [], value := Expr.lit 42 } } = none :=
  no_receiver_not_flagged _ _ _ rfl

/-- Claim C10: a method reported as having a self parameter whose body has an
empty parameter list is handled totally: the first-parameter destructuring
does not match and no diagnostic is emitted. -/
theorem empty_params_total (s : UnusedSelf) (cx : LateContext)
    (i : ImplItem) (body : Body)
    (h1 : cx.fn_has_self_parameter = true)
    (h2 : i.kind = ImplItemKind.fn body)
    (h3 : body.params = []) :
    check_impl_item s cx i = none := by
  unfold check_impl_item
  repeat' split
  all_goals simp_all

/-- Witness for C10: a contract-violating input claiming a self parameter
while supplying no body parameters draws no diagnostic. -/
theorem empty_params_total_witness :
    check_impl_item { avoid_breaking_exported_api := false }
      { parent_item := { kind := ItemKind.implBlock { of_trait := none } },
        fn_has_self_parameter := true, is_exported := false }
      { span := { fromExpansion := false, lo := 0, hi := 40 },
        kind := ImplItemKind.fn { params := [], value := Expr.lit 42 } } = none :=
  empty_params_total _ _ _ _ rfl rfl rfl

/-- Claim C2: a method whose receiver identity occurs as a direct reference
anywhere in the body — nested closures included — is reported used by the
usage check, and consequently the lint emits no diagnostic. -/
theorem receiver_referenced_not_flagged (s : UnusedSelf) (cx : LateContext)
    (i : ImplItem) (body : Body) (p : Param) (rest : List Param) (nm : String)
    (h1 : i.kind = ImplItemKind.fn body)
    (h2 : body.params = p :: rest)
    (h3 : PathOccurs nm p.pat.hirId body.value) :
    is_local_used body.value p.pat.hirId = true ∧
      check_impl_item s cx i = none := by
  have hu : is_local_used body.value p.pat.hirId = true :=
    (is_local_used_iff_pathOccurs _ _).mpr ⟨nm, h3⟩
  refine ⟨hu, ?_⟩
  unfold check_impl_item
  repeat' split
  all_goals simp_all

/-- Witness for C2: scenario 4, the receiver is referenced only from inside a
nested closure bound by a let; the capture counts as a use and no diagnostic
is drawn. -/
theorem receiver_referenced_not_flagged_witness :
    is_local_used
      (Expr.letIn { hirId := 1, name := "c" }
        (Expr.closure (Expr.field (Expr.path "self" (Res.localVar 0)) "x"))
        (Expr.app (Expr.path "c" (Res.localVar 1)) Expr.unit)) 0 = true ∧
    check_impl_item { avoid_breaking_exported_api := false }
      { parent_item := { kind := ItemKind.implBlock { of_trait := none } },
        fn_has_self_parameter := true, is_exported := false }
      { span := { fromExpansion := false, lo := 0, hi := 40 },
        kind := ImplItemKind.fn
          { params := [{ pat := { hirId := 0, name := "self" },
                         span := { fromExpansion := false, lo := 4, hi := 9 } }],
            value := Expr.letIn { hirId := 1, name := "c" }
              (Expr.closure (Expr.field (Expr.path "self" (Res.localVar 0)) "x"))
              (Expr.app (Expr.path "c" (Res.localVar 1)) Expr.unit) } } = none :=
  receiver_referenced_not_flagged { avoid_breaking_exported_api := false }
    { parent_item := { kind := ItemKind.implBlock { of_trait := none } },
      fn_has_self_parameter := true, is_exported := false }
    { span := { fromExpansion := false, lo := 0, hi := 40 },
      kind := ImplItemKind.fn
        { params := [{ pat := { hirId := 0, name := "self" },
                       span := { fromExpansion := false, lo := 4, hi := 9 } }],
          value := Expr.letIn { hirId := 1, name := "c" }
            (Expr.closure (Expr.field (Expr.path "self" (Res.localVar 0)) "x"))
            (Expr.app (Expr.path "c" (Res.localVar 1)) Expr.unit) } }
    { params := [{ pat := { hirId := 0, name := "self" },
                   span := { fromExpansion := false, lo := 4, hi := 9 } }],
      value := Expr.letIn { hirId := 1, name := "c" }
        (Expr.closure (Expr.field (Expr.path "self" (Res.localVar 0)) "x"))
        (Expr.app (Expr.path "c" (Res.localVar 1)) Expr.unit) }
    { pat := { hirId := 0, name := "self" },
      span := { fromExpansion := false, lo := 4, hi := 9 } } [] "self" rfl rfl
    (PathOccurs.inLetInit (PathOccurs.inClosure (PathOccurs.inField PathOccurs.here)))

/-- Claim C3: when an inner binding shadows the surface name of the receiver
but has a different resolved identity, references to the inner binding do not
count as uses of the receiver: the usage check on the receiver identity
reports not-used, the inner identity alone reports used, and the diagnostic
is still emitted. -/
theorem shadowed_receiver_still_flagged (s : UnusedSelf) (cx : LateContext)
    (i : ImplItem) (body : Body) (p : Param) (rest : List Param) (inner : Nat)
    (h1 : i.span.fromExpansion = false)
    (h2 : cx.parent_item.kind = ItemKind.implBlock { of_trait := none })
    (h3 : cx.fn_has_self_parameter = true)
    (h4 : i.kind = ImplItemKind.fn body)
    (h5 : body.params = p :: rest)
    (h6 : cx.is_exported = false ∨ s.avoid_breaking_exported_api = false)
    (hshadow : PathOccurs p.pat.name inner body.value)
    (_hne : inner ≠ p.pat.hirId)
    (hnone : ∀ nm, ¬ PathOccurs nm p.pat.hirId body.value) :
    is_local_used body.value p.pat.hirId = false ∧
      is_local_used body.value inner = true ∧
      check_impl_item s cx i = some (unused_self_diag p) := by
  have hu : is_local_used body.value p.pat.hirId = false :=
    (is_local_used_eq_false_iff _ _).mpr hnone
  exact ⟨hu, (is_local_used_iff_pathOccurs _ _).mpr ⟨p.pat.name, hshadow⟩,
    check_impl_item_some s cx i body p rest h1 h2 h3 h4 h5 h6 hu⟩

/-- Witness for C3: the body binds a new `self` with identity 1 shadowing the
receiver of identity 0 and references only the inner one; the receiver is
reported unused and the diagnostic is emitted. -/
theorem shadowed_receiver_still_flagged_witness :
    is_local_used
      (Expr.letIn { hirId := 1, name := "self" } (Expr.lit 0)
        (Expr.field (Expr.path "self" (Res.localVar 1)) "x")) 0 = false ∧
    is_local_used
      (Expr.letIn { hirId := 1, name := "self" } (Expr.lit 0)
        (Expr.field (Expr.path "self" (Res.localVar 1)) "x")) 1 = true ∧
    check_impl_item { avoid_breaking_exported_api := false }
      { parent_item := { kind := ItemKind.implBlock { of_trait := none } },
        fn_has_self_parameter := true, is_exported := false }
      { span := { fromExpansion := false, lo := 0, hi := 40 },
        kind := ImplItemKind.fn
          { params := [{ pat := { hirId := 0, name := "self" },
                         span := { fromExpansion := false, lo := 4, hi := 9 } }],
            value := Expr.letIn { hirId := 1, name := "self" } (Expr.lit 0)
              (Expr.field (Expr.path "self" (Res.localVar 1)) "x") } } =
      some (unused_self_diag
        { pat := { hirId := 0, name := "self" },
          span := { fromExpansion := false, lo := 4, hi := 9 } }) :=
  shadowed_receiver_still_flagged { avoid_breaking_exported_api := false }
    { parent_item := { kind := ItemKind.implBlock { of_trait := none } },
      fn_has_self_parameter := true, is_exported := false }
    { span := { fromExpansion := false, lo := 0, hi := 40 },
      kind := ImplItemKind.fn
        { params := [{ pat := { hirId := 0, name := "self" },
                       span := { fromExpansion := false, lo := 4, hi := 9 } }],
          value := Expr.letIn { hirId := 1, name := "self" } (Expr.lit 0)
            (Expr.field (Expr.path "self" (Res.localVar 1)) "x") } }
    { params := [{ pat := { hirId := 0, name := "self" },
                   span := { fromExpansion := false, lo := 4, hi := 9 } }],
      value := Expr.letIn { hirId := 1, name := "self" } (Expr.lit 0)
        (Expr.field (Expr.path "self" (Res.localVar 1)) "x") }
    { pat := { hirId := 0, name := "self" },
      span := { fromExpansion := false, lo := 4, hi := 9 } } [] 1
    rfl rfl rfl rfl rfl (Or.inl rfl)
    (PathOccurs.inLetRest (PathOccurs.inField PathOccurs.here))
    (by decide)
    ((is_local_used_eq_false_iff
      (Expr.letIn { hirId := 1, name := "self" } (Expr.lit 0)
        (Expr.field (Expr.path "self" (Res.localVar 1)) "x")) 0).mp (by decide))

/-- Claim C4: an otherwise qualifying method with an unused receiver is
excluded from flagging exactly when `avoid_breaking_exported_api` is true and
the method is exported: no diagnostic when both hold, one diagnostic
otherwise. -/
theorem exported_api_exclusion_iff (s : UnusedSelf) (cx : LateContext)
    (i : ImplItem) (body : Body) (p : Param) (rest : List Param)
    (h1 : i.span.fromExpansion = false)
    (h2 : cx.parent_item.kind = ItemKind.implBlock { of_trait := none })
    (h3 : cx.fn_has_self_parameter = true)
    (h4 : i.kind = ImplItemKind.fn body)
    (h5 : body.params = p :: rest)
    (h7 : is_local_used body.value p.pat.hirId = false) :
    check_impl_item s cx i =
      if cx.is_exported && s.avoid_breaking_exported_api then none
      else some (unused_self_diag p) := by
  cases hex : cx.is_exported with
  | false =>
    rw [check_impl_item_some s cx i body p rest h1 h2 h3 h4 h5 (Or.inl hex) h7]
    simp [hex]
  | true =>
    cases hfl : s.avoid_breaking_exported_api with
    | false =>
      rw [check_impl_item_some s cx i body p rest h1 h2 h3 h4 h5 (Or.inr hfl) h7]
      simp [hex, hfl]
    | true =>
      simp only [hex, hfl, Bool.and_self, if_true]
      unfold check_impl_item
      repeat' split
      all_goals simp_all

/-- Witness for C4: scenario 5, an exported method with an unused receiver
under `avoid_breaking_exported_api = true` resolves to no diagnostic through
the exclusion conditional. -/
theorem exported_api_exclusion_iff_witness :
    check_impl_item { avoid_breaking_exported_api := true }
      { parent_item := { kind := ItemKind.implBlock { of_trait := none } },
        fn_has_self_parameter := true, is_exported := true }
      { span := { fromExpansion := false, lo := 0, hi := 40 },
        kind := ImplItemKind.fn
          { params := [{ pat := { hirId := 0, name := "self" },
                         span := { fromExpansion := false, lo := 4, hi := 9 } }],
            value := Expr.lit 42 } } =
      (if true && true then none
       else some (unused_self_diag
         { pat := { hirId := 0, name := "self" },
           span := { fromExpansion := false, lo := 4, hi := 9 } })) :=
  exported_api_exclusion_iff { avoid_breaking_exported_api := true }
    { parent_item := { kind := ItemKind.implBlock { of_trait := none } },
      fn_has_self_parameter := true, is_exported := true }
    { span := { fromExpansion := false, lo := 0, hi := 40 },
      kind := ImplItemKind.fn
        { params := [{ pat := { hirId := 0, name := "self" },
                       span := { fromExpansion := false, lo := 4, hi := 9 } }],
          value := Expr.lit 42 } }
    { params := [{ pat := { hirId := 0, name := "self" },
                   span := { fromExpansion := false, lo := 4, hi := 9 } }],
      value := Expr.lit 42 }
    { pat := { hirId := 0, name := "self" },
      span := { fromExpansion := false, lo := 4, hi := 9 } } []
    rfl rfl rfl rfl rfl rfl

/-- Claim C9: the check is a pure function of the method declaration and the
configuration: two runs over the same inputs, or over two checker instances
carrying the same configuration flag, yield the same optional diagnostic. -/
theorem check_deterministic (s1 s2 : UnusedSelf) (cx : LateContext)
    (i : ImplItem)
    (h : s1.avoid_breaking_exported_api = s2.avoid_breaking_exported_api) :
    check_impl_item s1 cx i = check_impl_item s1 cx i ∧
      check_impl_item s1 cx i = check_impl_item s2 cx i := by
  obtain ⟨f1⟩ := s1
  obtain ⟨f2⟩ := s2
  simp only at h
  subst h
  exact ⟨rfl, rfl⟩

/-- Witness for C9: two checker instances constructed with the same flag give
the same verdict on a concrete method. -/
theorem check_deterministic_witness :
    check_impl_item (UnusedSelf.new true)
      { parent_item := { kind := ItemKind.implBlock { of_trait := none } },
        fn_has_self_parameter := true, is_exported := false }
      { span := { fromExpansion := false, lo := 0, hi := 40 },
        kind := ImplItemKind.fn
          { params := [{ pat := { hirId := 0, name := "self" },
                         span := { fromExpansion := false, lo := 4, hi := 9 } }],
            value := Expr.lit 42 } } =
    check_impl_item (UnusedSelf.new true)
      { parent_item := { kind := ItemKind.implBlock { of_trait := none } },
        fn_has_self_parameter := true, is_exported := false }
      { span := { fromExpansion := false, lo := 0, hi := 40 },
        kind := ImplItemKind.fn
          { params := [{ pat := { hirId := 0, name := "self" },
                         span := { fromExpansion := false, lo := 4, hi := 9 } }],
            value := Expr.lit 42 } } ∧
    check_impl_item (UnusedSelf.new true)
      { parent_item := { kind := ItemKind.implBlock { of_trait := none } },
        fn_has_self_parameter := true, is_exported := false }
      { span := { fromExpansion := false, lo := 0, hi := 40 },
        kind := ImplItemKind.fn
          { params := [{ pat := { hirId := 0, name := "self" },
                         span := { fromExpansion := false, lo := 4, hi := 9 } }],
            value := Expr.lit 42 } } =
    check_impl_item { avoid_breaking_exported_api := true }
      { parent_item := { kind := ItemKind.implBlock { of_trait := none } },
        fn_has_self_parameter := true, is_exported := false }
      { span := { fromExpansion := false, lo := 0, hi := 40 },
        kind := ImplItemKind.fn
          { params := [{ pat := { hirId := 0, name := "self" },
                         span := { fromExpansion := false, lo := 4, hi := 9 } }],
            value := Expr.lit 42 } } :=
  check_deterministic (UnusedSelf.new true) { avoid_breaking_exported_api := true }
    { parent_item := { kind := ItemKind.implBlock { of_trait := none } },
      fn_has_self_parameter := true, is_exported := false }
    { span := { fromExpansion := false, lo := 0, hi := 40 },
      kind := ImplItemKind.fn
        { params := [{ pat := { hirId := 0, name := "self" },
                       span := { fromExpansion := false, lo := 4, hi := 9 } }],
          value := Expr.lit 42 } } rfl

/-- Counterexample for C7: on a concrete positive detection the check emits a
diagnostic whose fixed message is the source string, which is not the message
the claim states. -/
theorem diag_message_counterexample :
    check_impl_item { avoid_breaking_exported_api := false }
      { parent_item := { kind := ItemKind.implBlock { of_trait := none } },
        fn_has_self_parameter := true, is_exported := false }
      { span := { fromExpansion := false, lo := 0, hi := 40 },
        kind := ImplItemKind.fn
          { params := [{ pat := { hirId := 0, name := "self" },
                         span := { fromExpansion := false, lo := 4, hi := 9 } }],
            value := Expr.lit 42 } } =
      some (unused_self_diag
        { pat := { hirId := 0, name := "self" },
          span := { fromExpansion := false, lo := 4, hi := 9 } }) ∧
    (unused_self_diag
      { pat := { hirId := 0, name := "self" },
        span := { fromExpansion := false, lo := 4, hi := 9 } }).message ≠
      "unused receiver parameter" := by
  exact ⟨rfl, by decide⟩

/-- Claim C7 as amended: a positive detection produces the diagnostic of the
`pedantic` lint `unused_self`, anchored at the receiver declaration span, with
the fixed message of the source, a help suggestion recommending conversion to
an associated function, and no machine-applicable fix. -/
theorem diag_shape_amended (s : UnusedSelf) (cx : LateContext)
    (i : ImplItem) (body : Body) (p : Param) (rest : List Param)
    (h1 : i.span.fromExpansion = false)
    (h2 : cx.parent_item.kind = ItemKind.implBlock { of_trait := none })
    (h3 : cx.fn_has_self_parameter = true)
    (h4 : i.kind = ImplItemKind.fn body)
    (h5 : body.params = p :: rest)
    (h6 : cx.is_exported = false ∨ s.avoid_breaking_exported_api = false)
    (h7 : is_local_used body.value p.pat.hirId = false) :
    check_impl_item s cx i =
      some { lint := UNUSED_SELF, span := p.span,
             message := "unused `self` argument",
             help_span := none,
             help_message := "consider refactoring to a associated function",
             machine_applicable_fix := none } ∧
      UNUSED_SELF.group = "pedantic" := by
  refine ⟨?_, rfl⟩
  have h := check_impl_item_some s cx i body p rest h1 h2 h3 h4 h5 h6 h7
  simpa [unused_self_diag, span_lint_and_help] using h

/-- Witness for the amended C7: the concrete detection of scenario 1 carries
exactly that diagnostic record. -/
theorem diag_shape_amended_witness :
    check_impl_item { avoid_breaking_exported_api := false }
      { parent_item := { kind := ItemKind.implBlock { of_trait := none } },
        fn_has_self_parameter := true, is_exported := false }
      { span := { fromExpansion := false, lo := 0, hi := 40 },
        kind := ImplItemKind.fn
          { params := [{ pat := { hirId := 0, name := "self" },
                         span := { fromExpansion := false, lo := 4, hi := 9 } }],
            value := Expr.lit 42 } } =
      some { lint := UNUSED_SELF,
             span := { fromExpansion := false, lo := 4, hi := 9 },
             message := "unused `self` argument",
             help_span := none,
             help_message := "consider refactoring to a associated function",
             machine_applicable_fix := none } ∧
      UNUSED_SELF.group = "pedantic" :=
  diag_shape_amended { avoid_breaking_exported_api := false }
    { parent_item := { kind := ItemKind.implBlock { of_trait := none } },
      fn_has_self_parameter := true, is_exported := false }
    { span := { fromExpansion := false, lo := 0, hi := 40 },
      kind := ImplItemKind.fn
        { params := [{ pat := { hirId := 0, name := "self" },
                       span := { fromExpansion := false, lo := 4, hi := 9 } }],
          value := Expr.lit 42 } }
    { params := [{ pat := { hirId := 0, name := "self" },
                   span := { fromExpansion := false, lo := 4, hi := 9 } }],
      value := Expr.lit 42 }
    { pat := { hirId := 0, name := "self" },
      span := { fromExpansion := false, lo := 4, hi := 9 } } []
    rfl rfl rfl rfl rfl (Or.inl rfl) rfl

/-- The check never draws more than one diagnostic per method: its result is
an optional diagnostic, so the emitted list has at most one element. -/
theorem check_impl_item_at_most_one (s : UnusedSelf) (cx : LateContext)
    (i : ImplItem) : (check_impl_item s cx i).toList.length ≤ 1 := by
  cases check_impl_item s cx i with
  | none => simp
  | some d => simp

/-- Claim C8: an eligible, non-excluded method whose receiver is never used
draws exactly one diagnostic — the emitted list has length one, never zero
and never more. -/
theorem exactly_one_diagnostic (s : UnusedSelf) (cx : LateContext)
    (i : ImplItem) (body : Body) (p : Param) (rest : List Param)
    (h1 : i.span.fromExpansion = false)
    (h2 : cx.parent_item.kind = ItemKind.implBlock { of_trait := none })
    (h3 : cx.fn_has_self_parameter = true)
    (h4 : i.kind = ImplItemKind.fn body)
    (h5 : body.params = p :: rest)
    (h6 : cx.is_exported = false ∨ s.avoid_breaking_exported_api = false)
    (h7 : is_local_used body.value p.pat.hirId = false) :
    check_impl_item s cx i = some (unused_self_diag p) ∧
      (check_impl_item s cx i).toList.length = 1 := by
  have h := check_impl_item_some s cx i body p rest h1 h2 h3 h4 h5 h6 h7
  rw [h]
  exact ⟨rfl, rfl⟩

/-- Witness for C8: scenario 1, a plain-impl method returning a constant with
an unreferenced receiver yields a diagnostic list of length one. -/
theorem exactly_one_diagnostic_witness :
    check_impl_item { avoid_breaking_exported_api := false }
      { parent_item := { kind := ItemKind.implBlock { of_trait := none } },
        fn_has_self_parameter := true, is_exported := false }
      { span := { fromExpansion := false, lo := 0, hi := 40 },
        kind := ImplItemKind.fn
          { params := [{ pat := { hirId := 0, name := "self" },
                         span := { fromExpansion := false, lo := 4, hi := 9 } }],
            value := Expr.lit 42 } } =
      some (unused_self_diag
        { pat := { hirId := 0, name := "self" },
          span := { fromExpansion := false, lo := 4, hi := 9 } }) ∧
    (check_impl_item { avoid_breaking_exported_api := false }
      { parent_item := { kind := ItemKind.implBlock { of_trait := none } },
        fn_has_self_parameter := true, is_exported := false }
      { span := { fromExpansion := false, lo := 0, hi := 40 },
        kind := ImplItemKind.fn
          { params := [{ pat := { hirId := 0, name := "self" },
                         span := { fromExpansion := false, lo := 4, hi := 9 } }],
            value := Expr.lit 42 } }).toList.length = 1 :=
  exactly_one_diagnostic { avoid_breaking_exported_api := false }
    { parent_item := { kind := ItemKind.implBlock { of_trait := none } },
      fn_has_self_parameter := true, is_exported := false }
    { span := { fromExpansion := false, lo := 0, hi := 40 },
      kind := ImplItemKind.fn
        { params := [{ pat := { hirId := 0, name := "self" },
                       span := { fromExpansion := false, lo := 4, hi := 9 } }],
          value := Expr.lit 42 } }
    { params := [{ pat := { hirId := 0, name := "self" },
                   span := { fromExpansion := false, lo := 4, hi := 9 } }],
      value := Expr.lit 42 }
    { pat := { hirId := 0, name := "self" },
      span := { fromExpansion := false, lo := 4, hi := 9 } } []
    rfl rfl rfl rfl rfl (Or.inl rfl) rfl
